import Mathlib

/-!
Verification of the natural-language specification of the
`open_deep_research` repository fragment against its two source files:

* `src/security/auth.py` — a permissive development identity provider
  (`get_current_user`);
* `tests/test_docker.py` — a container smoke test (`wait_for` polling
  helper and `test_docker_container_smoke`).

The Python code is shallowly embedded: `wait_for` becomes a recursive
function over an abstract probe stream and an integer clock, and the smoke
test becomes a function from an abstract world (filesystem flags, subprocess
exit codes, probe streams) to the trace of external effects it performs plus
its outcome.
-/

namespace OpenDeepResearch

/-! ## Embedding of `wait_for` (tests/test_docker.py, lines 18–29)

Python source:
```
def wait_for(url: str, timeout_seconds: int = 60) -> None:
    deadline = time.time() + timeout_seconds
    last_err: Exception | None = None
    while time.time() < deadline:
        try:
            resp = requests.get(url, timeout=5)
            if resp.status_code < 500:
                return
        except Exception as err:
            last_err = err
        time.sleep(2)
    raise TimeoutError(f"Timed out waiting for {url}. Last error: {last_err}")
```

The outcome of each `requests.get` call is an element of `Probe`: either a
response with a status code, or a raised exception (identified by a natural
number).  The wall clock starts at 0 (so `deadline = timeout_seconds`); the
`i`-th `requests.get` call takes `dur i` seconds, and each `time.sleep(2)`
advances the clock by 2.
-/

/-- Outcome of one `requests.get` call: a response with a status code, or a
raised exception (identified by an opaque numeric id). -/
inductive Probe where
  | resp (status : Nat)
  | exc (e : Nat)
deriving DecidableEq, Repr

/-- How `wait_for` finished: normal return, or a raised `TimeoutError`
carrying the `last_err` value interpolated into its message. -/
inductive WaitOutcome where
  | ok
  | timeout (lastErr : Option Probe)
deriving DecidableEq, Repr

/-- Result of a `wait_for` run: how it finished, how many `requests.get`
calls were issued, and how many `time.sleep(2)` calls were made. -/
structure WaitResult where
  outcome : WaitOutcome
  gets : Nat
  sleeps : Nat
deriving DecidableEq, Repr

/-- The `while` loop of `wait_for`.  `now` is the current clock value, `i`
the index of the next `requests.get` call, `lastErr` the current value of
the Python `last_err` variable (only exceptions are ever stored in it), and
`sleeps` the number of sleeps performed so far. -/
def waitGo (probe : Nat → Probe) (dur : Nat → Nat) (deadline : Int)
    (now : Int) (i : Nat) (lastErr : Option Probe) (sleeps : Nat) :
    WaitResult :=
  if _h : now < deadline then
    match probe i with
    | .resp s =>
      if s < 500 then
        ⟨.ok, i + 1, sleeps⟩
      else
        waitGo probe dur deadline (now + dur i + 2) (i + 1) lastErr (sleeps + 1)
    | .exc e =>
      waitGo probe dur deadline (now + dur i + 2) (i + 1)
        (some (.exc e)) (sleeps + 1)
  else
    ⟨.timeout lastErr, i, sleeps⟩
termination_by (deadline - now).toNat
decreasing_by
  · omega
  · omega

/-- `wait_for url timeout_seconds`, with the clock starting at 0. -/
def waitFor (probe : Nat → Probe) (dur : Nat → Nat)
    (timeoutSeconds : Int) : WaitResult :=
  waitGo probe dur timeoutSeconds 0 0 none 0

/-! ### Claim-side helpers over probe streams -/

/-- A probe outcome that does not satisfy the success test of the loop:
either a raised exception, or a response with status code `>= 500`. -/
def failing : Probe → Bool
  | .exc _ => true
  | .resp s => 500 ≤ s

/-- The most recent transient error (exception OR `>= 500` response) among
the first `n` probe outcomes — the notion of "retained error" asserted by
the specification. -/
def lastTransient (probe : Nat → Probe) : Nat → Option Probe
  | 0 => none
  | n + 1 => if failing (probe n) then some (probe n) else lastTransient probe n

/-- The most recent raised exception among the first `n` probe outcomes —
the value actually held by the Python `last_err` variable after `n`
attempts. -/
def lastExc (probe : Nat → Probe) : Nat → Option Probe
  | 0 => none
  | n + 1 =>
    match probe n with
    | .exc e => some (.exc e)
    | .resp _ => lastExc probe n

/-! ## Embedding of `get_current_user` (src/security/auth.py, lines 9–11)

Python source:
```
@auth.authenticate
async def get_current_user(authorization: str | None) -> Auth.types.MinimalUserDict:
    return {"identity": os.environ.get("DEV_USER_ID", "dev-user")}
```

The environment variable `DEV_USER_ID` is read at call time, so it is passed
as an explicit `Option String` argument.  The authentication-callback
interface ("return an identity record or fail") is modelled with `Except`:
the error channel (a raised exception in Python) carries an opaque string.
-/

/-- The identity record returned by an authentication callback: a single
`identity` field. -/
structure MinimalUserDict where
  identity : String
deriving DecidableEq, Repr

/-- `get_current_user`, with the value of the `DEV_USER_ID` environment
variable at call time passed explicitly as `devUserId`. -/
def get_current_user (devUserId : Option String)
    (_authorization : Option String) : Except String MinimalUserDict :=
  .ok { identity := devUserId.getD "dev-user" }

/-! ## Embedding of `test_docker_container_smoke` (tests/test_docker.py, lines 31–67)

The test is a straight-line script shelling out to the `docker` CLI.  It is
embedded as a function from a `World` — the filesystem flags, the exit codes
the subprocesses will return, and the probe streams the two polling loops
will observe — to the trace of external effects performed (template read,
env-file write, subprocess invocations in order) together with the outcome
(normal return, `FileNotFoundError`, `CalledProcessError` from a
`check=True` subprocess, or a propagated `TimeoutError`).
-/

def IMAGE_TAG : String := "open-deep-research:test"

def CONTAINER_NAME : String := "open-deep-research-test"

def PORT : Nat := 2024

/-- Path of the `.env` file under the project root. -/
def envFile (root : String) : String := root ++ "/.env"

/-- Argument vector of `docker build -t IMAGE_TAG <project_root>`. -/
def buildCmd (root : String) : List String :=
  ["docker", "build", "-t", IMAGE_TAG, root]

/-- Argument vector of `docker rm -f CONTAINER_NAME` (pre-clean and
teardown). -/
def rmCmd : List String := ["docker", "rm", "-f", CONTAINER_NAME]

/-- Argument vector of the `docker run` invocation, exactly as listed in the
source. -/
def runCmd (root : String) : List String :=
  ["docker", "run", "--name", CONTAINER_NAME, "--env-file", envFile root,
    "-p", toString PORT ++ ":" ++ toString PORT, IMAGE_TAG]

/-- Argument vector of `docker rmi IMAGE_TAG` (teardown). -/
def rmiCmd : List String := ["docker", "rmi", IMAGE_TAG]

/-- URL polled by the first `wait_for` call. -/
def healthUrl : String := "http://localhost:" ++ toString PORT ++ "/health"

/-- URL polled by the second `wait_for` call. -/
def docsUrl : String := "http://localhost:" ++ toString PORT ++ "/docs"

/-- An externally visible effect of the smoke test: reading the template
file, writing the `.env` file, or invoking a subprocess (`checked` records
whether the invocation used `check=True`). -/
inductive Event where
  | readTemplate
  | writeEnv (content : String)
  | exec (cmd : List String) (checked : Bool)
deriving DecidableEq, Repr

/-- How the smoke test finished: normal return, `FileNotFoundError` from the
missing-template check, `CalledProcessError` raised by a `check=True`
subprocess, or a `TimeoutError` propagated out of a polling loop. -/
inductive Outcome where
  | pass
  | fileNotFound (msg : String)
  | calledProcessError (cmd : List String)
  | timeoutErr (url : String) (lastErr : Option Probe)
deriving DecidableEq, Repr

/-- The environment the smoke test runs against: filesystem state, the exit
codes its subprocesses will return, and the probe streams (with per-call
durations) its two polling loops will observe. -/
structure World where
  envExists : Bool
  templateExists : Bool
  templateText : String
  buildExit : Nat
  precleanExit : Nat
  runExit : Nat
  healthProbe : Nat → Probe
  healthDur : Nat → Nat
  docsProbe : Nat → Probe
  docsDur : Nat → Nat
  rmExit : Nat
  rmiExit : Nat
  root : String

/-- The two unchecked teardown invocations of the `finally` block. -/
def teardownEvents : List Event :=
  [.exec rmCmd false, .exec rmiCmd false]

/-- The part of the test after environment materialization: build,
pre-clean, run, then the `try`/`finally` with the two polls.  `ev0` is the
trace accumulated by the materialization step. -/
def smokeBody (w : World) (ev0 : List Event) : List Event × Outcome :=
  let ev1 := ev0 ++ [.exec (buildCmd w.root) true]
  if w.buildExit ≠ 0 then
    (ev1, .calledProcessError (buildCmd w.root))
  else
    let ev2 := ev1 ++ [.exec rmCmd false]
    let ev3 := ev2 ++ [.exec (runCmd w.root) true]
    if w.runExit ≠ 0 then
      (ev3, .calledProcessError (runCmd w.root))
    else
      match (waitFor w.healthProbe w.healthDur 90).outcome with
      | .timeout e => (ev3 ++ teardownEvents, .timeoutErr healthUrl e)
      | .ok =>
        match (waitFor w.docsProbe w.docsDur 30).outcome with
        | .timeout e => (ev3 ++ teardownEvents, .timeoutErr docsUrl e)
        | .ok => (ev3 ++ teardownEvents, .pass)

/-- `test_docker_container_smoke`: the trace of effects performed and the
outcome, following the source line by line.  The `try` block wraps only the
two polling calls; its `finally` always runs the two unchecked teardown
invocations. -/
def smokeTest (w : World) : List Event × Outcome :=
  if w.envExists then
    smokeBody w []
  else if w.templateExists then
    smokeBody w [.readTemplate, .writeEnv w.templateText]
  else
    ([], .fileNotFound "env.example missing; cannot create .env for test")

/-! ## Helper lemmas about the polling loop -/

/-- The loop issues at most one `requests.get` per 2 seconds of budget:
starting from clock `now`, at most `((deadline - now).toNat + 1) / 2`
further attempts happen, because every iteration ends with `time.sleep(2)`. -/
theorem waitGo_gets_le (probe : Nat → Probe) (dur : Nat → Nat) (deadline : Int)
    (now : Int) (i : Nat) (lastErr : Option Probe) (sleeps : Nat) :
    (waitGo probe dur deadline now i lastErr sleeps).gets ≤
      i + ((deadline - now).toNat + 1) / 2 := by
  induction now, i, lastErr, sleeps using waitGo.induct probe dur deadline with
  | case1 now i lastErr sleeps h a hp hs =>
    rw [waitGo]
    simp only [dif_pos h, hp, if_pos hs]
    omega
  | case2 now i lastErr sleeps h a hp hs ih =>
    rw [waitGo]
    simp only [dif_pos h, hp, if_neg hs]
    omega
  | case3 now i lastErr sleeps h a hp ih =>
    rw [waitGo]
    simp only [dif_pos h, hp]
    omega
  | case4 now i lastErr sleeps h =>
    rw [waitGo]
    simp only [dif_neg h]
    omega

/-- Invariant of the `last_err` variable: it always holds the most recent
raised exception among the attempts performed so far, so on timeout the
raised `TimeoutError` carries exactly `lastExc` of the consumed prefix. -/
theorem waitGo_lastErr (probe : Nat → Probe) (dur : Nat → Nat) (deadline : Int)
    (now : Int) (i : Nat) (lastErr : Option Probe) (sleeps : Nat)
    (hle : lastErr = lastExc probe i) :
    (waitGo probe dur deadline now i lastErr sleeps).outcome = .ok ∨
      (waitGo probe dur deadline now i lastErr sleeps).outcome =
        .timeout (lastExc probe (waitGo probe dur deadline now i lastErr sleeps).gets) := by
  induction now, i, lastErr, sleeps using waitGo.induct probe dur deadline with
  | case1 now i lastErr sleeps h a hp hs =>
    rw [waitGo]
    simp only [dif_pos h, hp, if_pos hs]
    left
    trivial
  | case2 now i lastErr sleeps h a hp hs ih =>
    rw [waitGo]
    simp only [dif_pos h, hp, if_neg hs]
    exact ih (by rw [hle, lastExc, hp])
  | case3 now i lastErr sleeps h a hp ih =>
    rw [waitGo]
    simp only [dif_pos h, hp]
    exact ih (by rw [lastExc, hp])
  | case4 now i lastErr sleeps h =>
    rw [waitGo]
    simp only [dif_neg h]
    right
    rw [hle]

/-- If the next `k` attempts all fail (exception or `>= 500` status), the
attempt after them does not, and the clock budget covers the `k` sleeps,
then the loop returns normally right at that attempt, having issued exactly
`k + 1` further `requests.get` calls and slept exactly `k` more times
(`requests.get` durations all 0). -/
theorem waitGo_first_success (probe : Nat → Probe) (deadline : Int) :
    ∀ (k : Nat) (now : Int) (i : Nat) (lastErr : Option Probe) (sleeps : Nat),
      (∀ j, j < k → failing (probe (i + j)) = true) →
      failing (probe (i + k)) = false →
      now + 2 * k < deadline →
      waitGo probe (fun _ => 0) deadline now i lastErr sleeps =
        ⟨.ok, i + k + 1, sleeps + k⟩ := by
  intro k
  induction k with
  | zero =>
    intro now i lastErr sleeps _hfail hsucc hlt
    rw [waitGo]
    have h : now < deadline := by omega
    rcases hp : probe i with s | e
    · rw [Nat.add_zero, hp] at hsucc
      have hs : s < 500 := by
        by_contra hc
        simp [failing] at hsucc
        omega
      simp only [dif_pos h, hp, if_pos hs]
      simp
    · rw [Nat.add_zero, hp] at hsucc
      simp [failing] at hsucc
  | succ k ih =>
    intro now i lastErr sleeps hfail hsucc hlt
    have h : now < deadline := by omega
    have h0 : failing (probe i) = true := by
      have := hfail 0 (Nat.succ_pos k)
      simpa using this
    rw [waitGo]
    rcases hp : probe i with s | e
    · have hs : ¬ s < 500 := by
        rw [hp] at h0
        simp [failing] at h0
        omega
      simp only [dif_pos h, hp, if_neg hs, Nat.cast_zero]
      rw [ih (now + 0 + 2) (i + 1) lastErr (sleeps + 1)
        (fun j hj => by
          have := hfail (j + 1) (by omega)
          simpa [Nat.add_assoc, Nat.add_comm 1 j] using this)
        (by
          have heq : i + 1 + k = i + (k + 1) := by omega
          rw [heq]; exact hsucc)
        (by omega)]
      congr 1 <;> omega
    · simp only [dif_pos h, hp, Nat.cast_zero]
      rw [ih (now + 0 + 2) (i + 1) (some (.exc e)) (sleeps + 1)
        (fun j hj => by
          have := hfail (j + 1) (by omega)
          simpa [Nat.add_assoc, Nat.add_comm 1 j] using this)
        (by
          have heq : i + 1 + k = i + (k + 1) := by omega
          rw [heq]; exact hsucc)
        (by omega)]
      congr 1 <;> omega

/-! ## Claims about the dev identity provider -/

/-- C1: for every value of `DEV_USER_ID` (including unset) and every
credential argument (including `none`, empty, or malformed strings),
`get_current_user` returns exactly the record `{identity := v}` where `v` is
the value of `DEV_USER_ID` read at call time, or the literal `"dev-user"`
when the variable is unset; the credential argument never influences the
result. -/
theorem claim_C1_identity_record :
    ∀ (devUserId credential : Option String),
      get_current_user devUserId credential =
        .ok { identity := match devUserId with
                          | some v => v
                          | none => "dev-user" } ∧
      ∀ credential₂,
        get_current_user devUserId credential =
          get_current_user devUserId credential₂ := by
  intro dev cred
  refine ⟨?_, fun _ => rfl⟩
  cases dev <;> rfl

/-- C8: `get_current_user` never raises for any credential input and any
environment state: the result is always on the success channel of the
authentication-callback interface, never on its failure channel. -/
theorem claim_C8_never_fails :
    ∀ (devUserId credential : Option String),
      ∃ u, get_current_user devUserId credential = Except.ok u :=
  fun _ _ => ⟨_, rfl⟩

/-! ## Claims about the polling loop `wait_for` -/

/-- C5: `wait_for` returns successfully at the first attempt whose response
has status below 500 — no consecutive successes are required: if the `k`
earlier attempts all failed (exception or `>= 500` status) and attempt `k`
returns status `st < 500` within the deadline, the loop returns normally
after exactly `k + 1` GET requests and `k` 2-second sleeps. -/
theorem claim_C5_first_success (probe : Nat → Probe) (k st : Nat) (t : Int)
    (hfail : ∀ j, j < k → failing (probe j) = true)
    (hk : probe k = .resp st) (hst : st < 500) (ht : 2 * k < t) :
    waitFor probe (fun _ => 0) t = ⟨.ok, k + 1, k⟩ := by
  have hsucc : failing (probe k) = false := by
    rw [hk]
    simp [failing]
    omega
  have h := waitGo_first_success probe t k 0 0 none 0
    (fun j hj => by simpa using hfail j hj) (by simpa using hsucc) (by omega)
  simpa [waitFor] using h

/-- Witness for C5: the concrete scenario of the specification — two
connection errors followed by a 200 response on the third attempt, under the
90-second `/health` deadline — returns normally with exactly two sleeps. -/
theorem claim_C5_first_success_witness :
    waitFor (fun i => if i < 2 then Probe.exc 0 else Probe.resp 200)
      (fun _ => 0) 90 = ⟨.ok, 3, 2⟩ :=
  claim_C5_first_success (fun i => if i < 2 then Probe.exc 0 else Probe.resp 200)
    2 200 90 (by decide) rfl (by norm_num) (by norm_num)

/-- C9: every polling loop terminates: `waitFor` is a total function whose
result is either a normal return or a raised timeout, and the number of GET
attempts is bounded by half the deadline (each iteration sleeps 2 seconds) —
at most 46 attempts for the 90-second `/health` poll and at most 16 for the
30-second `/docs` poll. -/
theorem claim_C9_polling_terminates :
    (∀ (probe : Nat → Probe) (dur : Nat → Nat) (t : Int),
      (waitFor probe dur t).gets ≤ (t.toNat + 1) / 2 ∧
      ((waitFor probe dur t).outcome = .ok ∨
        ∃ e, (waitFor probe dur t).outcome = .timeout e)) ∧
    (∀ (probe : Nat → Probe) (dur : Nat → Nat),
      (waitFor probe dur 90).gets ≤ 46) ∧
    (∀ (probe : Nat → Probe) (dur : Nat → Nat),
      (waitFor probe dur 30).gets ≤ 16) := by
  have hb : ∀ (probe : Nat → Probe) (dur : Nat → Nat) (t : Int),
      (waitFor probe dur t).gets ≤ (t.toNat + 1) / 2 := by
    intro p d t
    have h := waitGo_gets_le p d t 0 0 none 0
    simpa [waitFor] using h
  refine ⟨fun p d t => ⟨hb p d t, ?_⟩, fun p d => ?_, fun p d => ?_⟩
  · rcases h : (waitFor p d t).outcome with _ | e
    · exact Or.inl rfl
    · exact Or.inr ⟨e, rfl⟩
  · have h := hb p d 90
    omega
  · have h := hb p d 30
    omega

/-- C10: for every non-positive timeout, `wait_for` raises the timeout error
immediately — zero GET requests, zero sleeps — and reports the last observed
error as `None`, because the deadline check precedes the first probe. -/
theorem claim_C10_nonpositive_timeout (probe : Nat → Probe) (dur : Nat → Nat)
    (t : Int) (ht : t ≤ 0) :
    waitFor probe dur t = ⟨.timeout none, 0, 0⟩ := by
  have h : ¬ ((0 : Int) < t) := by omega
  rw [waitFor, waitGo]
  simp [h]

/-- Witness for C10 at the concrete timeout `-3`. -/
theorem claim_C10_nonpositive_timeout_witness :
    waitFor (fun _ => Probe.resp 200) (fun _ => 0) (-3) =
      ⟨.timeout none, 0, 0⟩ :=
  claim_C10_nonpositive_timeout (fun _ => Probe.resp 200) (fun _ => 0) (-3)
    (by norm_num)

/-- C4 counterexample: an attempt trace consisting of a connection error and
then a 500 response, with a 4-second deadline.  The deadline elapses and the
raised timeout error carries the earlier exception `exc 7`, not the most
recent transient error (`resp 500`) asserted by the claim: a non-success
status is absorbed and retried but never retained in `last_err`. -/
theorem claim_C4_retained_error_counterexample :
    (waitFor (fun i => if i = 0 then Probe.exc 7 else Probe.resp 500)
        (fun _ => 0) 4).outcome = .timeout (some (Probe.exc 7)) ∧
    lastTransient (fun i => if i = 0 then Probe.exc 7 else Probe.resp 500)
        (waitFor (fun i => if i = 0 then Probe.exc 7 else Probe.resp 500)
          (fun _ => 0) 4).gets = some (Probe.resp 500) ∧
    (waitFor (fun i => if i = 0 then Probe.exc 7 else Probe.resp 500)
        (fun _ => 0) 4).outcome ≠
      .timeout (lastTransient (fun i => if i = 0 then Probe.exc 7 else Probe.resp 500)
        (waitFor (fun i => if i = 0 then Probe.exc 7 else Probe.resp 500)
          (fun _ => 0) 4).gets) := by
  refine ⟨?_, ?_, ?_⟩ <;>
    simp [waitFor, waitGo, lastTransient, failing]

/-- C4 amended: transient probe errors are absorbed and retried until the
deadline, but only raised exceptions are retained: when the deadline
elapses, the timeout error carries the most recent exception among the
attempts performed (in particular, after a window of only connection errors
it carries the last connection error); a non-success response is never
retained. -/
theorem claim_C4_retained_error_amended (probe : Nat → Probe)
    (dur : Nat → Nat) (t : Int) :
    (waitFor probe dur t).outcome = .ok ∨
      (waitFor probe dur t).outcome =
        .timeout (lastExc probe (waitFor probe dur t).gets) := by
  have h := waitGo_lastErr probe dur t 0 0 none 0 rfl
  simpa [waitFor] using h

/-! ## Claims about the smoke test -/

/-- A world in which all filesystem checks and subprocesses succeed and both
endpoints answer 200 immediately. -/
def passWorld : World where
  envExists := true
  templateExists := true
  templateText := ""
  buildExit := 0
  precleanExit := 0
  runExit := 0
  healthProbe := fun _ => .resp 200
  healthDur := fun _ => 0
  docsProbe := fun _ => .resp 200
  docsDur := fun _ => 0
  rmExit := 0
  rmiExit := 0
  root := "project_root"

/-- A world identical to `passWorld` except that the `docker run`
subprocess exits with status 1. -/
def runFailWorld : World := { passWorld with runExit := 1 }

/-- A world in which neither the `.env` file nor the `env.example` template
exists. -/
def missingTemplateWorld : World :=
  { passWorld with envExists := false, templateExists := false }

/-- When build and run both exit 0, the trace of the test is the
materialization trace, the three pre-poll subprocess invocations, and then
(whatever the two polls do) exactly the two teardown invocations of the
`finally` block. -/
theorem smokeBody_trace_polling (w : World) (ev0 : List Event)
    (hbuild : w.buildExit = 0) (hrun : w.runExit = 0) :
    (smokeBody w ev0).1 =
      (ev0 ++ [Event.exec (buildCmd w.root) true, Event.exec rmCmd false,
        Event.exec (runCmd w.root) true]) ++ teardownEvents := by
  rcases ho : (waitFor w.healthProbe w.healthDur 90).outcome with _ | e1
  · rcases ho2 : (waitFor w.docsProbe w.docsDur 30).outcome with _ | e2 <;>
      simp [smokeBody, hbuild, hrun, ho, ho2]
  · simp [smokeBody, hbuild, hrun, ho]

/-- Every event the body of the test emits is either inherited from the
materialization trace or a subprocess invocation. -/
theorem smokeBody_mem (w : World) (ev0 : List Event) (e : Event)
    (he : e ∈ (smokeBody w ev0).1) :
    e ∈ ev0 ∨ ∃ c b, e = Event.exec c b := by
  by_cases hb : w.buildExit = 0
  · by_cases hr : w.runExit = 0
    · rw [smokeBody_trace_polling w ev0 hb hr] at he
      simp only [teardownEvents, List.append_assoc, List.mem_append,
        List.mem_cons, List.not_mem_nil, or_false, or_assoc] at he
      rcases he with h | h | h | h | h | h
      · exact Or.inl h
      all_goals exact Or.inr ⟨_, _, h⟩
    · have he' : e ∈ ev0 ++ [Event.exec (buildCmd w.root) true,
          Event.exec rmCmd false, Event.exec (runCmd w.root) true] := by
        simpa [smokeBody, hb, hr] using he
      simp only [List.mem_append, List.mem_cons, List.not_mem_nil,
        or_false] at he'
      rcases he' with h | h | h | h
      · exact Or.inl h
      all_goals exact Or.inr ⟨_, _, h⟩
  · have he' : e ∈ ev0 ++ [Event.exec (buildCmd w.root) true] := by
      simpa [smokeBody, hb] using he
    simp only [List.mem_append, List.mem_cons, List.not_mem_nil,
      or_false] at he'
    rcases he' with h | h
    · exact Or.inl h
    · exact Or.inr ⟨_, _, h⟩

/-- C6: if the `.env` file does not exist and the `env.example` template
does not exist either, the smoke test raises the missing-template
`FileNotFoundError` with an empty effect trace — in particular before any
container toolchain command is invoked. -/
theorem claim_C6_missing_template (w : World)
    (henv : w.envExists = false) (htpl : w.templateExists = false) :
    smokeTest w =
      ([], .fileNotFound "env.example missing; cannot create .env for test") := by
  simp [smokeTest, henv, htpl]

/-- Witness for C6 at a concrete world. -/
theorem claim_C6_missing_template_witness :
    smokeTest missingTemplateWorld =
      ([], .fileNotFound "env.example missing; cannot create .env for test") :=
  claim_C6_missing_template missingTemplateWorld rfl rfl

/-- C7: if the `.env` file already exists at test start, the test never
writes it (its contents stay unchanged) and never reads the template:
every emitted event is a subprocess invocation. -/
theorem claim_C7_env_preserved (w : World) (henv : w.envExists = true) :
    ∀ e ∈ (smokeTest w).1,
      e ≠ Event.readTemplate ∧ ∀ s, e ≠ Event.writeEnv s := by
  intro e he
  have he' : e ∈ (smokeBody w []).1 := by
    simpa [smokeTest, henv] using he
  rcases smokeBody_mem w [] e he' with h | ⟨c, b, rfl⟩
  · cases h
  · exact ⟨by simp, fun s => by simp⟩

/-- Witness for C7 at a concrete world and a concrete event of its trace:
the pre-clean invocation is in the trace and is neither a template read nor
an env-file write. -/
theorem claim_C7_env_preserved_witness :
    Event.exec rmCmd false ∈ (smokeTest passWorld).1 ∧
    Event.exec rmCmd false ≠ Event.readTemplate ∧
    Event.exec rmCmd false ≠ Event.writeEnv "x" := by
  have hmem : Event.exec rmCmd false ∈ (smokeTest passWorld).1 := by
    rw [show (smokeTest passWorld).1 = (smokeBody passWorld []).1 from rfl,
      smokeBody_trace_polling passWorld [] rfl rfl]
    simp [teardownEvents]
  exact ⟨hmem, (claim_C7_env_preserved passWorld rfl _ hmem).1,
    (claim_C7_env_preserved passWorld rfl _ hmem).2 "x"⟩

/-- C3: the `docker run` invocation of the smoke test contains no `-d` /
`--detach` flag, while it does bind port `2024:2024` and inject the env
file: contrary to the claim (and to the intent evidenced by the subsequent
health polling), the argument shape does not detach the container, so
`subprocess.run` blocks until the container exits. -/
theorem claim_C3_run_not_detached :
    "-d" ∉ runCmd "project_root" ∧
    "--detach" ∉ runCmd "project_root" ∧
    "-p" ∈ runCmd "project_root" ∧
    "2024:2024" ∈ runCmd "project_root" ∧
    "--env-file" ∈ runCmd "project_root" := by
  decide

/-- C2 counterexample: in `runFailWorld` the `docker run` subprocess fails
after the image has been built, and the test aborts with the
`CalledProcessError` without ever invoking `docker rmi`: teardown is not
attempted on this exit path, although a resource (the image) was created. -/
theorem claim_C2_teardown_counterexample :
    (smokeTest runFailWorld).2 = .calledProcessError (runCmd "project_root") ∧
    Event.exec rmiCmd false ∉ (smokeTest runFailWorld).1 := by
  decide

/-- C2 amended: teardown (one forced container removal followed by one image
removal) is attempted exactly once whenever the polling phase is entered —
after both polls succeed or after either poll raises — but when the build or
run subprocess fails the test aborts without attempting teardown: no
`docker rmi` is ever invoked on those paths. -/
theorem claim_C2_teardown_amended (w : World)
    (hmat : w.envExists = true ∨ w.templateExists = true)
    (hbuild : w.buildExit = 0) (hrun : w.runExit = 0) :
    ∃ pre, (smokeTest w).1 = pre ++ teardownEvents ∧
      ∀ c b, Event.exec c b ∈ pre → c ≠ rmiCmd := by
  have key : ∀ ev0 : List Event, (∀ c b, Event.exec c b ∉ ev0) →
      ∃ pre, (smokeBody w ev0).1 = pre ++ teardownEvents ∧
        ∀ c b, Event.exec c b ∈ pre → c ≠ rmiCmd := by
    intro ev0 h0
    refine ⟨ev0 ++ [Event.exec (buildCmd w.root) true, Event.exec rmCmd false,
      Event.exec (runCmd w.root) true],
      smokeBody_trace_polling w ev0 hbuild hrun, ?_⟩
    intro c b hc hceq
    have hlen : c.length = 3 := by
      rw [hceq]
      rfl
    simp only [List.mem_append, List.mem_cons, List.not_mem_nil,
      or_false] at hc
    rcases hc with h | h | h | h
    · exact h0 c b h
    all_goals
      obtain ⟨h1, -⟩ := Event.exec.inj h
      rw [h1] at hlen
      simp [buildCmd, rmCmd, runCmd] at hlen
  by_cases he : w.envExists = true
  · have h := key [] (by simp)
    simpa [smokeTest, he] using h
  · have he' : w.envExists = false := by
      simpa using he
    have ht : w.templateExists = true := by
      rcases hmat with h | h
      · rw [he'] at h
        cases h
      · exact h
    have h := key [Event.readTemplate, Event.writeEnv w.templateText]
      (by intro c b hc; simp at hc)
    simpa [smokeTest, he', ht] using h

/-- Witness for the amended C2 at a concrete world where everything
succeeds. -/
theorem claim_C2_teardown_amended_witness :
    ∃ pre, (smokeTest passWorld).1 = pre ++ teardownEvents ∧
      ∀ c b, Event.exec c b ∈ pre → c ≠ rmiCmd :=
  claim_C2_teardown_amended passWorld (Or.inl rfl) rfl rfl

end OpenDeepResearch
